import Mathlib

/-!
Verification of the retrying GraphQL HTTP client (`graphql.go`).

The development shallowly embeds the two source files of the repository:
the `Client` / `Request` layer (`NewClient`, option combinators, `Run`)
and the retrying transport (`NewRetryableClient`, `shouldRetry`,
`RoundTrip`).  Go `time.Duration` values are integers counted in
nanoseconds; the underlying `http.RoundTripper` is modelled as a function
from the attempt index to that attempt's outcome, which by the
`http.RoundTripper` contract is either a response or an error.
-/

namespace Graphql

/-- One nanosecond is the unit; Go `time.Millisecond` in nanoseconds. -/
def millisecond : Int := 1000000

/-- Go `time.Second` in nanoseconds. -/
def second : Int := 1000000000

/-- `const RetryCount = 5` from the source. -/
def RetryCount : Nat := 5

/-- Largest value of Go's 64-bit `int`. -/
def maxInt64 : Int := 9223372036854775807

/-- Smallest value of Go's 64-bit `int`. -/
def minInt64 : Int := -9223372036854775808

/-- Decimal value of a digit string, as accumulated by Go `strconv.ParseInt`. -/
def digitsToNat (ds : List Char) : Nat :=
  ds.foldl (fun a c => a * 10 + (c.toNat - 48)) 0

/-- Modelled on Go `strconv.Atoi` with the returned error discarded, which is
how the source calls it (`waitTimeInSecs, _ := strconv.Atoi(...)`): an
optional leading sign followed by at least one digit parses to its decimal
value clamped to the 64-bit int range (on `ErrRange`, `ParseInt` still
returns the clamped value); any other string is a syntax error and yields 0. -/
def atoi (s : String) : Int :=
  let cs := s.toList
  let signed : Bool × List Char :=
    match cs with
    | '-' :: rest => (true, rest)
    | '+' :: rest => (false, rest)
    | _ => (false, cs)
  if signed.2.isEmpty || !(signed.2.all Char.isDigit) then 0
  else
    let v : Int := if signed.1 then -(digitsToNat signed.2 : Int)
                   else (digitsToNat signed.2 : Int)
    if v > maxInt64 then maxInt64
    else if v < minInt64 then minInt64
    else v

/-- An HTTP response as consumed by the retrying transport: its status code
and the value of the `Retry-After` header (`none` when the header is unset).
Go's `http.Header.Get` is a case-insensitive lookup returning `""` for a
missing key; the model stores the looked-up value directly. -/
structure Response where
  statusCode : Nat
  retryAfter : Option String
deriving DecidableEq

/-- Go `resp.Header.Get("Retry-After")`: the header value, or `""` if the
header is absent. -/
def headerGet (v : Option String) : String := v.getD ""

/-- Outcome of one call to the underlying transport's `RoundTrip`.  Per the
`http.RoundTripper` contract exactly one of the returned response and error
is non-nil, so the pair `(resp, err)` is an alternative. -/
inductive AttemptResult where
  | ok (resp : Response)
  | fail (err : String)
deriving DecidableEq

/-- The response component of an attempt outcome (`nil` on a transport
error). -/
def attemptResp : AttemptResult → Option Response
  | .ok r => some r
  | .fail _ => none

/-- The error component of an attempt outcome (`nil` when a response was
received). -/
def attemptErr : AttemptResult → Option String
  | .ok _ => none
  | .fail e => some e

/-- `retryableTransport` from the source; the logger performs no
state change that the claims mention, so only the configured default wait
is carried. -/
structure RetryableTransport where
  defaultWaitAfterTooManyRequests : Int
deriving DecidableEq

/-- Two's-complement wrap of an integer into Go's 64-bit int range
`[-2^63, 2^63)`: Go multiplication on `int64` (and hence on
`time.Duration`) overflows by wrapping. -/
def wrap64 (v : Int) : Int :=
  (v + 9223372036854775808) % 18446744073709551616 - 9223372036854775808

/-- `shouldRetry` from the source, on an attempt outcome.  The Go function
receives `(err, resp)` and dereferences `resp` only after `err != nil` has
been excluded, matching the `AttemptResult` alternative.  Returns the wait
duration (nanoseconds) and whether to retry.  The 429 wait is
`time.Duration(waitTimeInSecs) * time.Second`, an int64 product that wraps
on overflow. -/
def shouldRetry (t : RetryableTransport) : AttemptResult → Int × Bool
  | .fail _ => (0, false)
  | .ok resp =>
    if resp.statusCode = 502 || resp.statusCode = 503 || resp.statusCode = 504 then
      (250 * millisecond, true)
    else if resp.statusCode = 429 then
      let waitTimeInSecs := atoi (headerGet resp.retryAfter)
      let waitTimeDuration := wrap64 (waitTimeInSecs * second)
      if waitTimeInSecs = 0 then (t.defaultWaitAfterTooManyRequests, true)
      else (waitTimeDuration, true)
    else (0, false)

/-- An outbound HTTP request as the transport sees it: the body stream, or
`none` when `req.Body == nil`; the stream content is its byte list. -/
structure HttpRequest where
  body : Option (List Nat)
deriving DecidableEq

/-- What the retry loop of `RoundTrip` produced: the outcome of the last
attempt made, the number of retries performed, the sleeps performed (in
order, only the strictly positive waits, as the code sleeps under
`timeToWait > 0`), and whether the loop ended by exhausting the budget
(`retries >= RetryCount`) rather than by `break`. -/
structure LoopOut where
  final : AttemptResult
  extraAttempts : Nat
  waits : List Int
  exhausted : Bool
deriving DecidableEq

/-- The `for retries < RetryCount` loop of `RoundTrip`: `cur` is the outcome
of the attempt just made, `rem` the remaining retry budget, and `nextIdx`
the index the next attempt would get. -/
def retryLoop (t : RetryableTransport) (u : Nat → AttemptResult) :
    Nat → Nat → AttemptResult → LoopOut
  | _, 0, cur => ⟨cur, 0, [], true⟩
  | nextIdx, rem + 1, cur =>
    let d := shouldRetry t cur
    if d.2 then
      let rest := retryLoop t u (nextIdx + 1) rem (u nextIdx)
      ⟨rest.final, rest.extraAttempts + 1,
        (if d.1 > 0 then [d.1] else []) ++ rest.waits, rest.exhausted⟩
    else ⟨cur, 0, [], false⟩

/-- The message built at the `retries >= RetryCount` exit of `RoundTrip`:
`fmt.Errorf("retry limit reached (err=%s)", err.Error())` when the last
attempt errored, else `fmt.Errorf("retry limit reached")`. -/
def retryLimitMsg : AttemptResult → String
  | .fail e => "retry limit reached (err=" ++ e ++ ")"
  | .ok _ => "retry limit reached"

/-- Everything observable about one call to `RoundTrip`: the returned
response and error, how many underlying attempts were made, which sleeps
happened, the body installed on the request before each attempt, whether
the body was read and cloned at entry, and whether the retry budget was
exhausted. -/
structure RoundTripOut where
  resp : Option Response
  err : Option String
  attemptCount : Nat
  waits : List Int
  bodiesPresented : List (Option (List Nat))
  bodyCloned : Bool
  exhausted : Bool
deriving DecidableEq

/-- `RoundTrip` of `retryableTransport`.  The body is read once into
`bodyBytes` when non-nil and a buffer over those bytes is installed before
the first attempt and again before every retry, so the body presented to
each of the `attemptCount` attempts is `bodyBytes`; a nil body is never
cloned.  After the loop, `retries >= RetryCount` returns the last response
together with the retry-limit error; otherwise the last attempt's response
and error are returned as they are. -/
def RoundTrip (t : RetryableTransport) (u : Nat → AttemptResult)
    (req : HttpRequest) : RoundTripOut :=
  let bodyBytes := req.body
  let first := u 0
  let out := retryLoop t u 1 RetryCount first
  let n := out.extraAttempts + 1
  { resp := attemptResp out.final
    err := if out.exhausted then some (retryLimitMsg out.final)
           else attemptErr out.final
    attemptCount := n
    waits := out.waits
    bodiesPresented := List.replicate n bodyBytes
    bodyCloned := req.body.isSome
    exhausted := out.exhausted }

/-- The `http.Client` a `Client` ends up holding: either the retrying client
built by `NewRetryableClient` (whose `Transport` is a `retryableTransport`),
or a caller-supplied `*http.Client`, identified by a tag and carrying no
retry transport. -/
inductive HttpClient where
  | retryable (t : RetryableTransport)
  | custom (id : Nat)
deriving DecidableEq

/-- `Client` from the source.  Pointers that may be nil are `Option`; the
three loggers are omitted as they carry no state the claims mention. -/
structure Client where
  endpoint : String
  httpClient : Option HttpClient
  useMultipartForm : Bool
  defaultWaitAfterTooManyRequests : Int
  closeReq : Bool
deriving DecidableEq

/-- The option combinators the source exports as `ClientOption` values:
`WithHTTPClient` (whose `*http.Client` argument may be nil),
`UseMultipartForm`, `ImmediatelyCloseReqBody`,
`WithWaitAfterTooManyRequests`, and the three logger installers, which
touch no modelled field. -/
inductive ClientOption where
  | withHTTPClient (hc : Option Nat)
  | useMultipartForm
  | immediatelyCloseReqBody
  | withWaitAfterTooManyRequests (d : Int)
  | withLogDebug
  | withLogError
  | withLogWarn
deriving DecidableEq

/-- Applying one `ClientOption` function to the client under construction,
as each combinator's closure does in the source. -/
def applyOption (c : Client) : ClientOption → Client
  | .withHTTPClient hc => { c with httpClient := hc.map HttpClient.custom }
  | .useMultipartForm => { c with useMultipartForm := true }
  | .immediatelyCloseReqBody => { c with closeReq := true }
  | .withWaitAfterTooManyRequests d => { c with defaultWaitAfterTooManyRequests := d }
  | .withLogDebug => c
  | .withLogError => c
  | .withLogWarn => c

/-- The zero-valued `Client{endpoint: endpoint, ...}` literal built at the
top of `NewClient` before the options run. -/
def initClient (endpoint : String) : Client :=
  { endpoint := endpoint
    httpClient := none
    useMultipartForm := false
    defaultWaitAfterTooManyRequests := 0
    closeReq := false }

/-- `NewClient` from the source: apply the options in order, then install
`NewRetryableClient(c.logWarn, c.defaultWaitAfterTooManyRequests)` exactly
when `c.httpClient == nil`. -/
def NewClient (endpoint : String) (opts : List ClientOption) : Client :=
  let c := opts.foldl applyOption (initClient endpoint)
  if c.httpClient = none then
    { c with httpClient := some (.retryable ⟨c.defaultWaitAfterTooManyRequests⟩) }
  else c

/-- One request issued through a `Client`'s `httpClient`: the retryable
client routes it through `RoundTrip` of its `retryableTransport`, while a
caller-supplied client performs exactly one underlying attempt (the
standard `http.Client` with its plain transport: no retry loop, no sleeps,
no synthesized retry error, body presented once as given). -/
def httpClientDo (hc : HttpClient) (u : Nat → AttemptResult)
    (req : HttpRequest) : RoundTripOut :=
  match hc with
  | .retryable t => RoundTrip t u req
  | .custom _ =>
    { resp := attemptResp (u 0)
      err := attemptErr (u 0)
      attemptCount := 1
      waits := []
      bodiesPresented := [req.body]
      bodyCloned := false
      exhausted := false }

/-- A caller-supplied `context.Context` at the moment `Run` inspects it:
whether `ctx.Done()` is already closed, and what `ctx.Err()` reports. -/
structure Ctx where
  done : Bool
  err : String
deriving DecidableEq

/-- `File` from the source (the `io.Reader` is not consumed by any claim). -/
structure File where
  field : String
  name : String
deriving DecidableEq

/-- `Request` from the source: query, variables (values opaque), files,
and extra headers. -/
structure Request where
  q : String
  vars : List (String × String)
  files : List File
  header : List (String × String)
deriving DecidableEq

/-- Where a call to `Run` goes: the early `ctx.Done()` return with
`ctx.Err()`, the early files-without-multipart error return, or one of the
two send paths (`runWithPostFields` / `runWithJSON`), which are where
request encoding and HTTP attempts happen. -/
inductive RunPhase where
  | ctxError (e : String)
  | filesError
  | postFields
  | json
deriving DecidableEq

/-- The dispatch at the top of `Run`, in source order: the non-blocking
`select` on `ctx.Done()` first, then the
`len(req.files) > 0 && !c.useMultipartForm` guard, then the choice of send
path. `Run` is read-only on the request up to this point. -/
def Run (c : Client) (ctx : Ctx) (req : Request) : RunPhase :=
  if ctx.done then .ctxError ctx.err
  else if req.files.length > 0 && !c.useMultipartForm then .filesError
  else if c.useMultipartForm then .postFields
  else .json

/-- The error `Run` returns from the two early-return phases, before any
body is encoded or any HTTP attempt is made. -/
def runEarlyError : RunPhase → Option String
  | .ctxError e => some e
  | .filesError => some "cannot send files with PostFields option"
  | .postFields => none
  | .json => none

/-- Whether the phase goes on to encode a request body and call the HTTP
client: true exactly for the two send paths. -/
def runProceeds : RunPhase → Bool
  | .ctxError _ => false
  | .filesError => false
  | .postFields => true
  | .json => true

/-! ### Characterizing the retry loop -/

/-- The sequence of attempt outcomes the loop inspects when entered with
current outcome `cur` and next attempt index `idx`: element 0 is `cur`,
element `j + 1` is the outcome of attempt `idx + j`. -/
def seqFrom (u : Nat → AttemptResult) (idx : Nat) (cur : AttemptResult) :
    Nat → AttemptResult
  | 0 => cur
  | j + 1 => u (idx + j)

lemma seqFrom_succ (u : Nat → AttemptResult) (idx : Nat) (cur : AttemptResult)
    (j : Nat) : seqFrom u idx cur (j + 1) = seqFrom u (idx + 1) (u idx) j := by
  cases j with
  | zero => simp [seqFrom]
  | succ k =>
    show u (idx + (k + 1)) = u (idx + 1 + k)
    congr 1
    omega

lemma seqFrom_one (u : Nat → AttemptResult) (j : Nat) :
    seqFrom u 1 (u 0) j = u j := by
  cases j with
  | zero => rfl
  | succ k =>
    show u (1 + k) = u (k + 1)
    congr 1
    omega

/-- When every inspected outcome is retry-worthy, the loop consumes its
whole budget: it performs `rem` retries, ends on the outcome `rem` steps
in, and exits exhausted. -/
lemma retryLoop_exhaust (t : RetryableTransport) (u : Nat → AttemptResult) :
    ∀ (rem idx : Nat) (cur : AttemptResult),
    (∀ j, j < rem → (shouldRetry t (seqFrom u idx cur j)).2 = true) →
    (retryLoop t u idx rem cur).final = seqFrom u idx cur rem ∧
    (retryLoop t u idx rem cur).extraAttempts = rem ∧
    (retryLoop t u idx rem cur).exhausted = true := by
  intro rem
  induction rem with
  | zero =>
    intro idx cur _
    simp [retryLoop, seqFrom]
  | succ k ih =>
    intro idx cur h
    have h0 : (shouldRetry t cur).2 = true := h 0 (Nat.succ_pos k)
    have hrest := ih (idx + 1) (u idx) (fun j hj => by
      have hs := h (j + 1) (Nat.succ_lt_succ hj)
      rwa [seqFrom_succ] at hs)
    simp [retryLoop, h0, hrest.1, hrest.2.1, hrest.2.2, seqFrom_succ]

/-- When the first `k` inspected outcomes are retry-worthy and the `k`-th is
not, with `k` inside the budget, the loop breaks there: `k` retries were
performed, the `k`-th outcome is returned, the budget is not exhausted, and
for `k = 0` no sleep happened. -/
lemma retryLoop_stopAt (t : RetryableTransport) (u : Nat → AttemptResult) :
    ∀ (k rem idx : Nat) (cur : AttemptResult), k < rem →
    (∀ j, j < k → (shouldRetry t (seqFrom u idx cur j)).2 = true) →
    (shouldRetry t (seqFrom u idx cur k)).2 = false →
    (retryLoop t u idx rem cur).final = seqFrom u idx cur k ∧
    (retryLoop t u idx rem cur).extraAttempts = k ∧
    (retryLoop t u idx rem cur).exhausted = false ∧
    (k = 0 → (retryLoop t u idx rem cur).waits = []) := by
  intro k
  induction k with
  | zero =>
    intro rem idx cur hlt _ hstop
    obtain ⟨m, rfl⟩ : ∃ m, rem = m + 1 := ⟨rem - 1, by omega⟩
    have hstop' : (shouldRetry t cur).2 = false := hstop
    simp [retryLoop, hstop', seqFrom]
  | succ n ih =>
    intro rem idx cur hlt hprev hstop
    obtain ⟨m, rfl⟩ : ∃ m, rem = m + 1 := ⟨rem - 1, by omega⟩
    have h0 : (shouldRetry t cur).2 = true := hprev 0 (Nat.succ_pos n)
    have hrest := ih m (idx + 1) (u idx) (by omega)
      (fun j hj => by
        have hs := hprev (j + 1) (Nat.succ_lt_succ hj)
        rwa [seqFrom_succ] at hs)
      (by rw [← seqFrom_succ]; exact hstop)
    simp [retryLoop, h0, hrest.1, hrest.2.1, hrest.2.2.1, seqFrom_succ]

/-- When every inspected outcome asks for the same strictly positive wait,
the loop sleeps that wait once per retry. -/
lemma retryLoop_waits_const (t : RetryableTransport) (u : Nat → AttemptResult)
    (w : Int) (hw : 0 < w) :
    ∀ (rem idx : Nat) (cur : AttemptResult),
    (∀ j, j < rem → shouldRetry t (seqFrom u idx cur j) = (w, true)) →
    (retryLoop t u idx rem cur).waits = List.replicate rem w := by
  intro rem
  induction rem with
  | zero =>
    intro idx cur _
    simp [retryLoop]
  | succ k ih =>
    intro idx cur h
    have h0 : shouldRetry t cur = (w, true) := h 0 (Nat.succ_pos k)
    have hrest := ih (idx + 1) (u idx) (fun j hj => by
      have hs := h (j + 1) (Nat.succ_lt_succ hj)
      rwa [seqFrom_succ] at hs)
    simp [retryLoop, h0, hrest, hw, List.replicate_succ]

/-- `RoundTrip` when the first `RetryCount` attempts are all retry-worthy:
the budget is exhausted, `RetryCount + 1` attempts are made, and the last
attempt's response is returned together with the retry-limit error,
whatever that last attempt was. -/
lemma roundTrip_exhaust (t : RetryableTransport) (u : Nat → AttemptResult)
    (req : HttpRequest)
    (h : ∀ j, j < RetryCount → (shouldRetry t (u j)).2 = true) :
    (RoundTrip t u req).exhausted = true ∧
    (RoundTrip t u req).resp = attemptResp (u RetryCount) ∧
    (RoundTrip t u req).err = some (retryLimitMsg (u RetryCount)) ∧
    (RoundTrip t u req).attemptCount = RetryCount + 1 := by
  have hloop := retryLoop_exhaust t u RetryCount 1 (u 0)
    (fun j hj => by rw [seqFrom_one]; exact h j hj)
  simp [RoundTrip, hloop.1, hloop.2.1, hloop.2.2, seqFrom_one]

/-- `RoundTrip` when attempt `k < RetryCount` is the first non-retry-worthy
attempt: the loop breaks there, `k + 1` attempts are made, the budget is
not exhausted, and that attempt's response and error are returned as they
are; for `k = 0` no sleep happened at all. -/
lemma roundTrip_stopAt (t : RetryableTransport) (u : Nat → AttemptResult)
    (req : HttpRequest) (k : Nat) (hk : k < RetryCount)
    (hprev : ∀ j, j < k → (shouldRetry t (u j)).2 = true)
    (hstop : (shouldRetry t (u k)).2 = false) :
    (RoundTrip t u req).exhausted = false ∧
    (RoundTrip t u req).resp = attemptResp (u k) ∧
    (RoundTrip t u req).err = attemptErr (u k) ∧
    (RoundTrip t u req).attemptCount = k + 1 ∧
    (k = 0 → (RoundTrip t u req).waits = []) := by
  have hloop := retryLoop_stopAt t u k RetryCount 1 (u 0) hk
    (fun j hj => by rw [seqFrom_one]; exact hprev j hj)
    (by rw [seqFrom_one]; exact hstop)
  simp [RoundTrip, hloop.1, hloop.2.1, hloop.2.2.1, seqFrom_one]
  intro hk0
  simp [hloop.2.2.2 hk0]

/-- The waits of a `RoundTrip` call are exactly the waits of its retry
loop. -/
lemma roundTrip_waits_eq (t : RetryableTransport) (u : Nat → AttemptResult)
    (req : HttpRequest) :
    (RoundTrip t u req).waits = (retryLoop t u 1 RetryCount (u 0)).waits := rfl

/-- The bodies presented by a `RoundTrip` call are the captured body,
repeated once per attempt. -/
lemma roundTrip_bodies_eq (t : RetryableTransport) (u : Nat → AttemptResult)
    (req : HttpRequest) :
    (RoundTrip t u req).bodiesPresented
      = List.replicate (RoundTrip t u req).attemptCount req.body := rfl

/-- Wrapping is the identity on values already inside the 64-bit int
range. -/
lemma wrap64_eq_self (v : Int) (h1 : minInt64 ≤ v) (h2 : v ≤ maxInt64) :
    wrap64 v = v := by
  unfold wrap64
  unfold minInt64 at h1
  unfold maxInt64 at h2
  omega

/-! ### The claims -/

/-- C2: when every attempt yields a response with status 503, `RoundTrip`
makes exactly `RetryCount + 1 = 6` attempts, sleeps the fixed 250 ms
backoff before each of the 5 retries, and returns the retry-exhausted
error. -/
theorem roundTrip_all_503 (t : RetryableTransport) (u : Nat → AttemptResult)
    (req : HttpRequest) (h : ∀ i, ∃ r, u i = .ok r ∧ r.statusCode = 503) :
    (RoundTrip t u req).attemptCount = RetryCount + 1 ∧
    (RoundTrip t u req).waits = List.replicate RetryCount (250 * millisecond) ∧
    (RoundTrip t u req).err = some "retry limit reached" ∧
    (RoundTrip t u req).exhausted = true := by
  have hretry : ∀ j, shouldRetry t (u j) = (250 * millisecond, true) := by
    intro j
    obtain ⟨r, hr, hs⟩ := h j
    simp [hr, shouldRetry, hs]
  have hex := roundTrip_exhaust t u req (fun j _ => by rw [hretry j])
  have hw := retryLoop_waits_const t u (250 * millisecond) (by decide)
    RetryCount 1 (u 0) (fun j _ => by rw [seqFrom_one, hretry j])
  obtain ⟨r5, hr5, _⟩ := h RetryCount
  refine ⟨hex.2.2.2, ?_, ?_, hex.1⟩
  · rw [roundTrip_waits_eq, hw]
  · rw [hex.2.2.1, hr5]
    rfl

/-- C2 witness: a transport answering 503 forever. -/
theorem roundTrip_all_503_witness :
    (RoundTrip ⟨0⟩ (fun _ => .ok ⟨503, none⟩) ⟨none⟩).attemptCount = RetryCount + 1 ∧
    (RoundTrip ⟨0⟩ (fun _ => .ok ⟨503, none⟩) ⟨none⟩).waits
      = List.replicate RetryCount (250 * millisecond) ∧
    (RoundTrip ⟨0⟩ (fun _ => .ok ⟨503, none⟩) ⟨none⟩).err = some "retry limit reached" ∧
    (RoundTrip ⟨0⟩ (fun _ => .ok ⟨503, none⟩) ⟨none⟩).exhausted = true :=
  roundTrip_all_503 ⟨0⟩ (fun _ => .ok ⟨503, none⟩) ⟨none⟩
    (fun _ => ⟨⟨503, none⟩, rfl, rfl⟩)

/-- C4: an attempt that fails with a transport-level error is not retried;
on the first attempt `RoundTrip` returns at once with the original error,
no response, one single attempt and no wait. -/
theorem roundTrip_transport_error (t : RetryableTransport)
    (u : Nat → AttemptResult) (req : HttpRequest) (e : String)
    (h0 : u 0 = .fail e) :
    (shouldRetry t (u 0)).2 = false ∧
    (RoundTrip t u req).attemptCount = 1 ∧
    (RoundTrip t u req).waits = [] ∧
    (RoundTrip t u req).resp = none ∧
    (RoundTrip t u req).err = some e := by
  have hstop : (shouldRetry t (u 0)).2 = false := by rw [h0]; rfl
  have hs := roundTrip_stopAt t u req 0 (by decide)
    (fun j hj => absurd hj (Nat.not_lt_zero j)) hstop
  refine ⟨hstop, hs.2.2.2.1, hs.2.2.2.2 rfl, ?_, ?_⟩
  · rw [hs.2.1, h0]
    rfl
  · rw [hs.2.2.1, h0]
    rfl

/-- C4 witness: a connection-refused first attempt. -/
theorem roundTrip_transport_error_witness :
    (shouldRetry ⟨0⟩ ((fun _ => .fail "connection refused") 0)).2 = false ∧
    (RoundTrip ⟨0⟩ (fun _ => .fail "connection refused") ⟨none⟩).attemptCount = 1 ∧
    (RoundTrip ⟨0⟩ (fun _ => .fail "connection refused") ⟨none⟩).waits = [] ∧
    (RoundTrip ⟨0⟩ (fun _ => .fail "connection refused") ⟨none⟩).resp = none ∧
    (RoundTrip ⟨0⟩ (fun _ => .fail "connection refused") ⟨none⟩).err
      = some "connection refused" :=
  roundTrip_transport_error ⟨0⟩ (fun _ => .fail "connection refused") ⟨none⟩
    "connection refused" rfl

/-- C5: the body installed on the request before every attempt — initial
and retries alike — is the body captured at entry, so all attempts see the
same bytes; and the clone step runs only when a body is present. -/
theorem roundTrip_body_invariant (t : RetryableTransport)
    (u : Nat → AttemptResult) (req : HttpRequest) :
    (RoundTrip t u req).bodiesPresented
      = List.replicate (RoundTrip t u req).attemptCount req.body ∧
    (RoundTrip t u req).bodyCloned = req.body.isSome ∧
    ∀ b, b ∈ (RoundTrip t u req).bodiesPresented → b = req.body := by
  refine ⟨roundTrip_bodies_eq t u req, rfl, ?_⟩
  intro b hb
  rw [roundTrip_bodies_eq] at hb
  exact List.eq_of_mem_replicate hb

/-- C5 witness: a three-byte body through an always-503 transport. -/
theorem roundTrip_body_invariant_witness :
    (RoundTrip ⟨0⟩ (fun _ => .ok ⟨503, none⟩) ⟨some [1, 2, 3]⟩).bodiesPresented
      = List.replicate
          (RoundTrip ⟨0⟩ (fun _ => .ok ⟨503, none⟩) ⟨some [1, 2, 3]⟩).attemptCount
          (some [1, 2, 3]) ∧
    (RoundTrip ⟨0⟩ (fun _ => .ok ⟨503, none⟩) ⟨some [1, 2, 3]⟩).bodyCloned = true ∧
    some [1, 2, 3] ∈
      (RoundTrip ⟨0⟩ (fun _ => .ok ⟨503, none⟩) ⟨some [1, 2, 3]⟩).bodiesPresented ∧
    (some [1, 2, 3] : Option (List Nat)) = some [1, 2, 3] :=
  ⟨(roundTrip_body_invariant ⟨0⟩ (fun _ => .ok ⟨503, none⟩) ⟨some [1, 2, 3]⟩).1,
   (roundTrip_body_invariant ⟨0⟩ (fun _ => .ok ⟨503, none⟩) ⟨some [1, 2, 3]⟩).2.1,
   by decide,
   (roundTrip_body_invariant ⟨0⟩ (fun _ => .ok ⟨503, none⟩) ⟨some [1, 2, 3]⟩).2.2
     (some [1, 2, 3]) (by decide)⟩

/-- C6: a first attempt whose response status lies outside
{429, 502, 503, 504} — 200 and 400 included — ends the call after exactly
one attempt with no wait, the response returned as-is and no error. -/
theorem roundTrip_non_retry_status (t : RetryableTransport)
    (u : Nat → AttemptResult) (req : HttpRequest) (r : Response)
    (h0 : u 0 = .ok r) (h429 : r.statusCode ≠ 429) (h502 : r.statusCode ≠ 502)
    (h503 : r.statusCode ≠ 503) (h504 : r.statusCode ≠ 504) :
    (RoundTrip t u req).attemptCount = 1 ∧
    (RoundTrip t u req).waits = [] ∧
    (RoundTrip t u req).resp = some r ∧
    (RoundTrip t u req).err = none := by
  have hstop : (shouldRetry t (u 0)).2 = false := by
    rw [h0]
    simp [shouldRetry, h429, h502, h503, h504]
  have hs := roundTrip_stopAt t u req 0 (by decide)
    (fun j hj => absurd hj (Nat.not_lt_zero j)) hstop
  refine ⟨hs.2.2.2.1, hs.2.2.2.2 rfl, ?_, ?_⟩
  · rw [hs.2.1, h0]
    rfl
  · rw [hs.2.2.1, h0]
    rfl

/-- C6 witness: a 400 Bad Request first attempt. -/
theorem roundTrip_non_retry_status_witness :
    (RoundTrip ⟨0⟩ (fun _ => .ok ⟨400, none⟩) ⟨none⟩).attemptCount = 1 ∧
    (RoundTrip ⟨0⟩ (fun _ => .ok ⟨400, none⟩) ⟨none⟩).waits = [] ∧
    (RoundTrip ⟨0⟩ (fun _ => .ok ⟨400, none⟩) ⟨none⟩).resp = some ⟨400, none⟩ ∧
    (RoundTrip ⟨0⟩ (fun _ => .ok ⟨400, none⟩) ⟨none⟩).err = none :=
  roundTrip_non_retry_status ⟨0⟩ (fun _ => .ok ⟨400, none⟩) ⟨none⟩ ⟨400, none⟩
    rfl (by decide) (by decide) (by decide) (by decide)

/-- C7: when the loop exits with the retry counter at `RetryCount`, the
returned error carries the last attempt's error text when that attempt
errored, and is the bare "retry limit reached" otherwise. -/
theorem roundTrip_limit_message (t : RetryableTransport)
    (u : Nat → AttemptResult) (req : HttpRequest)
    (h : ∀ j, j < RetryCount → (shouldRetry t (u j)).2 = true) :
    (RoundTrip t u req).exhausted = true ∧
    (∀ e, u RetryCount = .fail e →
      (RoundTrip t u req).err = some ("retry limit reached (err=" ++ e ++ ")")) ∧
    (∀ r, u RetryCount = .ok r →
      (RoundTrip t u req).err = some "retry limit reached") := by
  have hex := roundTrip_exhaust t u req h
  refine ⟨hex.1, ?_, ?_⟩
  · intro e he
    rw [hex.2.2.1, he]
    rfl
  · intro r hr
    rw [hex.2.2.1, hr]
    rfl

/-- C7 witness: five 503s then a failed sixth attempt give the wrapped
message; six 503s give the generic message. -/
theorem roundTrip_limit_message_witness :
    (RoundTrip ⟨0⟩ (fun i => if i < 5 then .ok ⟨503, none⟩ else .fail "broken pipe")
        ⟨none⟩).err
      = some ("retry limit reached (err=" ++ "broken pipe" ++ ")") ∧
    (RoundTrip ⟨0⟩ (fun _ => .ok ⟨503, none⟩) ⟨none⟩).err
      = some "retry limit reached" :=
  ⟨(roundTrip_limit_message ⟨0⟩
      (fun i => if i < 5 then .ok ⟨503, none⟩ else .fail "broken pipe") ⟨none⟩
      (fun j hj => by
        show (shouldRetry ⟨0⟩
          (if j < 5 then .ok ⟨503, none⟩ else .fail "broken pipe")).2 = true
        rw [if_pos (show j < 5 from hj)]
        rfl)).2.1
      "broken pipe" (by decide),
   (roundTrip_limit_message ⟨0⟩ (fun _ => .ok ⟨503, none⟩) ⟨none⟩
      (fun _ _ => rfl)).2.2 ⟨503, none⟩ rfl⟩

/-- C8: a context already cancelled or expired at entry makes `Run` return
the context's error from the initial `select`, before any body encoding or
HTTP attempt. -/
theorem run_ctx_done (c : Client) (ctx : Ctx) (req : Request)
    (h : ctx.done = true) :
    Run c ctx req = .ctxError ctx.err ∧
    runEarlyError (Run c ctx req) = some ctx.err ∧
    runProceeds (Run c ctx req) = false := by
  simp [Run, h, runEarlyError, runProceeds]

/-- C8 witness: a cancelled context on a default client. -/
theorem run_ctx_done_witness :
    Run (NewClient "http://api" []) ⟨true, "context canceled"⟩ ⟨"q", [], [], []⟩
      = .ctxError "context canceled" ∧
    runEarlyError (Run (NewClient "http://api" []) ⟨true, "context canceled"⟩
      ⟨"q", [], [], []⟩) = some "context canceled" ∧
    runProceeds (Run (NewClient "http://api" []) ⟨true, "context canceled"⟩
      ⟨"q", [], [], []⟩) = false :=
  run_ctx_done (NewClient "http://api" []) ⟨true, "context canceled"⟩
    ⟨"q", [], [], []⟩ rfl

/-- C1 counterexample: five 503 responses followed by a 200.  The final
attempt, made after the retry budget is consumed, is never shown to the
decision function even though it is non-retry-worthy: `RoundTrip` returns
the 200 response together with the "retry limit reached" error instead of
as a normal error-free response, and returns that error although the last
attempt was not retry-worthy. -/
theorem roundTrip_final_200_counterexample :
    (shouldRetry ⟨0⟩ (.ok ⟨200, none⟩)).2 = false ∧
    (RoundTrip ⟨0⟩ (fun i => if i < 5 then .ok ⟨503, none⟩ else .ok ⟨200, none⟩)
        ⟨none⟩).resp = some ⟨200, none⟩ ∧
    (RoundTrip ⟨0⟩ (fun i => if i < 5 then .ok ⟨503, none⟩ else .ok ⟨200, none⟩)
        ⟨none⟩).err = some "retry limit reached" := by decide

/-- C1 (amended): a non-retry-worthy outcome on any of the attempts the
decision function inspects — the first `RetryCount` attempts — is returned
to the caller as-is, with the transport synthesizing no error; but once
the first `RetryCount` attempts were all retry-worthy, the retry-limit
error is returned regardless of the final attempt's outcome, which the
decision function never inspects. -/
theorem roundTrip_decision_outcomes (t : RetryableTransport)
    (u : Nat → AttemptResult) (req : HttpRequest) :
    ((∀ j, j < RetryCount → (shouldRetry t (u j)).2 = true) →
      (RoundTrip t u req).resp = attemptResp (u RetryCount) ∧
      (RoundTrip t u req).err = some (retryLimitMsg (u RetryCount))) ∧
    (∀ k, k < RetryCount → (∀ j, j < k → (shouldRetry t (u j)).2 = true) →
      (shouldRetry t (u k)).2 = false →
      (RoundTrip t u req).resp = attemptResp (u k) ∧
      (RoundTrip t u req).err = attemptErr (u k) ∧
      (RoundTrip t u req).attemptCount = k + 1) := by
  constructor
  · intro h
    have hex := roundTrip_exhaust t u req h
    exact ⟨hex.2.1, hex.2.2.1⟩
  · intro k hk hprev hstop
    have hs := roundTrip_stopAt t u req k hk hprev hstop
    exact ⟨hs.2.1, hs.2.2.1, hs.2.2.2.1⟩

/-- C1 witness: the exhaustion half on an always-503 transport, and the
immediate-return half on a first-attempt 200. -/
theorem roundTrip_decision_outcomes_witness :
    ((RoundTrip ⟨0⟩ (fun _ => .ok ⟨503, none⟩) ⟨none⟩).resp
        = attemptResp ((fun _ => AttemptResult.ok ⟨503, none⟩) RetryCount) ∧
      (RoundTrip ⟨0⟩ (fun _ => .ok ⟨503, none⟩) ⟨none⟩).err
        = some (retryLimitMsg ((fun _ => AttemptResult.ok ⟨503, none⟩) RetryCount))) ∧
    ((RoundTrip ⟨0⟩ (fun _ => .ok ⟨200, none⟩) ⟨none⟩).resp
        = attemptResp ((fun _ => AttemptResult.ok ⟨200, none⟩) 0) ∧
      (RoundTrip ⟨0⟩ (fun _ => .ok ⟨200, none⟩) ⟨none⟩).err
        = attemptErr ((fun _ => AttemptResult.ok ⟨200, none⟩) 0) ∧
      (RoundTrip ⟨0⟩ (fun _ => .ok ⟨200, none⟩) ⟨none⟩).attemptCount = 0 + 1) :=
  ⟨(roundTrip_decision_outcomes ⟨0⟩ (fun _ => .ok ⟨503, none⟩) ⟨none⟩).1
      (fun _ _ => rfl),
   (roundTrip_decision_outcomes ⟨0⟩ (fun _ => .ok ⟨200, none⟩) ⟨none⟩).2 0
      (by decide) (fun j hj => absurd hj (Nat.not_lt_zero j)) rfl⟩

/-- C3 counterexample: two 429 responses refute the claim.  With
Retry-After "-1", Atoi parses -1, nonzero, so the computed wait is -1
second: negative, and not the configured default wait.  With Retry-After
"9223372037", Atoi parses a positive value, but the int64 product
`time.Duration(9223372037) * time.Second` overflows and wraps to
-9223372036709551616 ns: again a negative wait despite a positive
header. -/
theorem shouldRetry_negative_retry_after_counterexample :
    (shouldRetry ⟨1000000000⟩ (.ok ⟨429, some "-1"⟩)).1 = -1000000000 ∧
    (shouldRetry ⟨1000000000⟩ (.ok ⟨429, some "-1"⟩)).1 < 0 ∧
    (shouldRetry ⟨1000000000⟩ (.ok ⟨429, some "-1"⟩)).1 ≠ 1000000000 ∧
    0 < atoi "9223372037" ∧
    (shouldRetry ⟨1000000000⟩ (.ok ⟨429, some "9223372037"⟩)).1
      = -9223372036709551616 ∧
    (shouldRetry ⟨1000000000⟩ (.ok ⟨429, some "9223372037"⟩)).1 < 0 := by decide

/-- C3 (amended): for every 429 response the decision is to retry; when the
Retry-After header parsed as a signed integer (Go Atoi, errors discarded)
is nonzero, the wait is that value times one second computed in wrapping
64-bit arithmetic: a positive header whose product stays inside int64
gives exactly that many seconds, a positive wait, while a negative header
gives a negative wait and a huge positive header can wrap to a negative
wait; whenever the parse yields 0 (header absent, literally "0", or
unparsable) the wait is the configured default. -/
theorem shouldRetry_too_many_requests (t : RetryableTransport) (r : Response)
    (h : r.statusCode = 429) :
    (shouldRetry t (.ok r)).2 = true ∧
    (atoi (headerGet r.retryAfter) = 0 →
      (shouldRetry t (.ok r)).1 = t.defaultWaitAfterTooManyRequests) ∧
    (atoi (headerGet r.retryAfter) ≠ 0 →
      (shouldRetry t (.ok r)).1 = wrap64 (atoi (headerGet r.retryAfter) * second)) ∧
    (0 < atoi (headerGet r.retryAfter) →
      atoi (headerGet r.retryAfter) * second ≤ maxInt64 →
      (shouldRetry t (.ok r)).1 = atoi (headerGet r.retryAfter) * second ∧
      0 < (shouldRetry t (.ok r)).1) ∧
    (r.retryAfter = none →
      (shouldRetry t (.ok r)).1 = t.defaultWaitAfterTooManyRequests) := by
  have hs : shouldRetry t (.ok r)
      = (if atoi (headerGet r.retryAfter) = 0 then t.defaultWaitAfterTooManyRequests
         else wrap64 (atoi (headerGet r.retryAfter) * second), true) := by
    simp only [shouldRetry, h]
    norm_num
    split <;> rfl
  by_cases h0 : atoi (headerGet r.retryAfter) = 0
  · refine ⟨by simp [hs], fun _ => by simp [hs, h0], fun hne => absurd h0 hne,
      fun hpos _ => ?_, fun _ => by simp [hs, h0]⟩
    rw [h0] at hpos
    exact absurd hpos (lt_irrefl 0)
  · refine ⟨by simp [hs], fun habs => absurd habs h0, fun _ => by simp [hs, h0],
      fun hpos hle => ?_, fun hnone => ?_⟩
    · have hprod : 0 < atoi (headerGet r.retryAfter) * second :=
        mul_pos hpos (by norm_num [second])
      have hlo : minInt64 ≤ atoi (headerGet r.retryAfter) * second := by
        have hmin : (minInt64 : Int) ≤ 0 := by norm_num [minInt64]
        linarith
      have hval : (shouldRetry t (.ok r)).1
          = atoi (headerGet r.retryAfter) * second := by
        rw [hs]
        simp only [h0, if_false]
        exact wrap64_eq_self _ hlo hle
      exact ⟨hval, by rw [hval]; exact hprod⟩
    · rw [hnone] at h0
      exact absurd rfl h0

/-- C3 witness: a parsable positive header "3" stays inside int64 and
yields a positive 3-second wait on a 429; an absent header yields the
configured 42 ns default. -/
theorem shouldRetry_too_many_requests_witness :
    (shouldRetry ⟨42⟩ (.ok ⟨429, some "3"⟩)).2 = true ∧
    (shouldRetry ⟨42⟩ (.ok ⟨429, some "3"⟩)).1
      = atoi (headerGet (some "3")) * second ∧
    0 < (shouldRetry ⟨42⟩ (.ok ⟨429, some "3"⟩)).1 ∧
    (shouldRetry ⟨42⟩ (.ok ⟨429, none⟩)).1 = 42 :=
  ⟨(shouldRetry_too_many_requests ⟨42⟩ ⟨429, some "3"⟩ rfl).1,
   ((shouldRetry_too_many_requests ⟨42⟩ ⟨429, some "3"⟩ rfl).2.2.2.1
      (by decide) (by decide)).1,
   ((shouldRetry_too_many_requests ⟨42⟩ ⟨429, some "3"⟩ rfl).2.2.2.1
      (by decide) (by decide)).2,
   (shouldRetry_too_many_requests ⟨42⟩ ⟨429, none⟩ rfl).2.2.2.2 rfl⟩

/-- C9: `NewClient` installs the retrying transport exactly when the
options left `httpClient` nil; when the options installed a caller-supplied
client — in particular when `WithHTTPClient` with a non-nil client is the
last option, as in the documented usage — every request goes through that
client, which performs a single attempt with no sleeps, no retry loop and
no synthesized retry-exhausted error. -/
theorem newClient_transport_choice (e : String) (opts : List ClientOption) :
    (((opts.foldl applyOption (initClient e)).httpClient = none) →
      (NewClient e opts).httpClient = some (.retryable
        ⟨(opts.foldl applyOption (initClient e)).defaultWaitAfterTooManyRequests⟩)) ∧
    (∀ n, (opts.foldl applyOption (initClient e)).httpClient = some (.custom n) →
      (NewClient e opts).httpClient = some (.custom n)) ∧
    (∀ pre n, opts = pre ++ [.withHTTPClient (some n)] →
      (NewClient e opts).httpClient = some (.custom n)) ∧
    (∀ n u req', (httpClientDo (.custom n) u req').attemptCount = 1 ∧
      (httpClientDo (.custom n) u req').waits = [] ∧
      (httpClientDo (.custom n) u req').err = attemptErr (u 0) ∧
      (httpClientDo (.custom n) u req').resp = attemptResp (u 0) ∧
      (httpClientDo (.custom n) u req').exhausted = false) := by
  refine ⟨?_, ?_, ?_, ?_⟩
  · intro h
    simp [NewClient, h]
  · intro n h
    simp [NewClient, h]
  · intro pre n hopts
    subst hopts
    have hlast : (applyOption (pre.foldl applyOption (initClient e))
        (ClientOption.withHTTPClient (some n))).httpClient
        = some (.custom n) := rfl
    simp [NewClient, List.foldl_append, hlast]
  · intro n u req'
    exact ⟨rfl, rfl, rfl, rfl, rfl⟩

/-- C9 witness: a client supplied through `WithHTTPClient` is kept; a bare
`NewClient` gets the retryable client; the supplied client makes one
attempt with no waits. -/
theorem newClient_transport_choice_witness :
    (NewClient "http://api" [.useMultipartForm, .withHTTPClient (some 3)]).httpClient
      = some (.custom 3) ∧
    (NewClient "http://api" []).httpClient = some (.retryable ⟨0⟩) ∧
    (httpClientDo (.custom 3) (fun _ => .ok ⟨503, none⟩) ⟨none⟩).attemptCount = 1 ∧
    (httpClientDo (.custom 3) (fun _ => .ok ⟨503, none⟩) ⟨none⟩).waits = [] ∧
    (httpClientDo (.custom 3) (fun _ => .ok ⟨503, none⟩) ⟨none⟩).exhausted = false :=
  ⟨(newClient_transport_choice "http://api"
      [.useMultipartForm, .withHTTPClient (some 3)]).2.1 3 rfl,
   (newClient_transport_choice "http://api" []).1 rfl,
   ((newClient_transport_choice "http://api" []).2.2.2 3
      (fun _ => .ok ⟨503, none⟩) ⟨none⟩).1,
   ((newClient_transport_choice "http://api" []).2.2.2 3
      (fun _ => .ok ⟨503, none⟩) ⟨none⟩).2.1,
   ((newClient_transport_choice "http://api" []).2.2.2 3
      (fun _ => .ok ⟨503, none⟩) ⟨none⟩).2.2.2.2⟩

/-- C10 counterexample: a request carrying a file, on a client without
`UseMultipartForm`, but with a context that is already cancelled: `Run`
returns the context error from its first check, not the
files-with-PostFields error the claim promises unconditionally. -/
theorem run_files_cancelled_ctx_counterexample :
    (NewClient "http://api" []).useMultipartForm = false ∧
    Run (NewClient "http://api" []) ⟨true, "context canceled"⟩
        ⟨"q", [], [⟨"file", "a.txt"⟩], []⟩ = .ctxError "context canceled" ∧
    runEarlyError (Run (NewClient "http://api" []) ⟨true, "context canceled"⟩
        ⟨"q", [], [⟨"file", "a.txt"⟩], []⟩)
      ≠ some "cannot send files with PostFields option" := by decide

/-- C10 (amended): provided the supplied context is not already cancelled
or expired at entry, `Run` on a client without `UseMultipartForm` and a
request carrying at least one file returns the
"cannot send files with PostFields option" error before any body is
encoded or any HTTP attempt is made. -/
theorem run_files_without_multipart (c : Client) (ctx : Ctx) (req : Request)
    (hctx : ctx.done = false) (hf : req.files ≠ [])
    (hm : c.useMultipartForm = false) :
    Run c ctx req = .filesError ∧
    runEarlyError (Run c ctx req)
      = some "cannot send files with PostFields option" ∧
    runProceeds (Run c ctx req) = false := by
  have hlen : 0 < req.files.length := List.length_pos.mpr hf
  have hrun : Run c ctx req = .filesError := by
    simp [Run, hctx, hm, hlen]
  exact ⟨hrun, by rw [hrun]; rfl, by rw [hrun]; rfl⟩

/-- C10 witness: one file on a default (JSON) client with a live context. -/
theorem run_files_without_multipart_witness :
    Run (NewClient "http://api" []) ⟨false, ""⟩ ⟨"q", [], [⟨"file", "a.txt"⟩], []⟩
      = .filesError ∧
    runEarlyError (Run (NewClient "http://api" []) ⟨false, ""⟩
        ⟨"q", [], [⟨"file", "a.txt"⟩], []⟩)
      = some "cannot send files with PostFields option" ∧
    runProceeds (Run (NewClient "http://api" []) ⟨false, ""⟩
        ⟨"q", [], [⟨"file", "a.txt"⟩], []⟩) = false :=
  run_files_without_multipart (NewClient "http://api" []) ⟨false, ""⟩
    ⟨"q", [], [⟨"file", "a.txt"⟩], []⟩ rfl (by decide) rfl

end Graphql
